import Mathlib

/-!
Verification of the fluence-ipc state-upgrade patch (`upgrade01.rs`) and the
block-hash query handler (`block_hash.rs`) against their specification.

The Rust code is shallowly embedded: bytes are `Nat` values below 256, byte
strings are `List Nat`, hex strings are Lean `String`s, and the fallible Rust
functions become `Except`-valued Lean functions.  External collaborators
(the staking/finality facets behind the `ContractCaller`, the connection
pool, the subnet-id parser) are abstracted as explicit environment records,
so every theorem about the patch quantifies over their behaviour.
-/

set_option maxRecDepth 100000

namespace FluenceIpc

/-! ## Hex encoding and decoding (the `hex` crate)

`hex::decode` first rejects an odd-length input, then decodes character
pairs left to right, accepting `0-9`, `a-f` and `A-F`; `hex::encode`
produces lowercase digits. -/

inductive HexError
  | oddLength
  | invalidChar
deriving DecidableEq, Repr

/-- The numeric value of one hex digit character, as accepted by
`hex::decode` (digits, lowercase and uppercase letters). -/
def hexDigitVal (c : Char) : Option Nat :=
  let n := c.toNat
  if 48 ≤ n ∧ n ≤ 57 then some (n - 48)
  else if 97 ≤ n ∧ n ≤ 102 then some (n - 87)
  else if 65 ≤ n ∧ n ≤ 70 then some (n - 55)
  else none

/-- Decode an even-length character list two characters per byte. -/
def hexDecodePairs : List Char → Except HexError (List Nat)
  | [] => .ok []
  | c1 :: c2 :: rest =>
    match hexDigitVal c1, hexDigitVal c2 with
    | some hi, some lo =>
      match hexDecodePairs rest with
      | .ok bs => .ok ((16 * hi + lo) :: bs)
      | .error e => .error e
    | _, _ => .error .invalidChar
  | [_] => .error .oddLength

/-- `hex::decode`: odd length is rejected up front, then pairs are decoded. -/
def hexDecode (s : String) : Except HexError (List Nat) :=
  if s.length % 2 = 0 then hexDecodePairs s.data else .error .oddLength

/-- The lowercase hex digit character for a value below 16. -/
def hexDigitChar (n : Nat) : Char :=
  Char.ofNat (if n < 10 then 48 + n else 87 + n)

/-- `hex::encode`: two lowercase digits per byte. -/
def hexEncode (bs : List Nat) : String :=
  String.mk (List.flatten (bs.map (fun b => [hexDigitChar (b / 16), hexDigitChar (b % 16)])))

/-! ## `parse_logs` (upgrade01.rs lines 147-163) -/

/-- The topic id for the configuration change request,
keccak of the `NewStakingChangeRequest(uint8,address,bytes,uint64)` signature
(upgrade01.rs line 21). -/
def CONFIGURATION_CHANGE_TOPIC : String :=
  "1c593a2b803c3f9038e8b6743ba79fbc4276d2770979a01d2768ed12bea3243f"

/-- The topic as the 32-byte `H256` value parsed from
`CONFIGURATION_CHANGE_TOPIC` by `H256::from_str`. -/
def topicH256 : List Nat := (hexDecode CONFIGURATION_CHANGE_TOPIC).toOption.getD []

/-- `ethers::abi::RawLog`: raw data bytes plus a list of 32-byte topics. -/
structure RawLog where
  data : List Nat
  topics : List (List Nat)
deriving DecidableEq, Repr

/-- `hex_str.starts_with("0x")`: the first two characters are `0x`. -/
def hasOxMarker (s : String) : Bool :=
  match s.data with
  | c1 :: c2 :: _ => c1 == '0' && c2 == 'x'
  | _ => false

/-- The hex body of one raw log string: the source strips a leading `0x`
marker when present and otherwise decodes the string as given
(upgrade01.rs lines 151-155). -/
def logHexBody (s : String) : String :=
  if hasOxMarker s then String.mk (s.data.drop 2) else s

/-- `parse_logs` (upgrade01.rs lines 147-163): hex-decode every blob,
stopping at the first decode failure, and attach the single fixed
configuration-change topic to each decoded data payload. -/
def parse_logs : List String → Except HexError (List RawLog)
  | [] => .ok []
  | s :: rest =>
    match hexDecode (logHexBody s) with
    | .error e => .error e
    | .ok data =>
      match parse_logs rest with
      | .error e => .error e
      | .ok logs => .ok ({ data := data, topics := [topicH256] } :: logs)

/-! ## ABI event decoding (`ethers_contract::decode_logs::<NewStakingChangeRequestFilter>`)

The event `NewStakingChangeRequest(uint8,address,bytes,uint64)` has no
indexed parameter, so a raw log decodes by checking that the topic list is
exactly the event signature hash and ABI-decoding the data as a head of
four 32-byte words (`op`, `validator`, payload offset, configuration
number) followed by the length-prefixed payload tail; the `uint8` and
`uint64` fields are range-checked when detokenized. -/

inductive DecodeError
  | topicMismatch
  | dataTooShort
  | uintOverflow
deriving DecidableEq, Repr

/-- The big-endian value of a byte string. -/
def beNat (bs : List Nat) : Nat := bs.foldl (fun acc b => acc * 256 + b) 0

/-- The `i`-th 32-byte word of an ABI data payload. -/
def abiWord (data : List Nat) (i : Nat) : List Nat := (data.drop (32 * i)).take 32

/-- The decoded `NewStakingChangeRequest` event
(`ipc_actors_abis::lib_staking_change_log::NewStakingChangeRequestFilter`). -/
structure NewStakingChangeRequestFilter where
  op : Nat
  validator : Nat
  payload : List Nat
  configuration_number : Nat
deriving DecidableEq, Repr

/-- Decode one raw log as a `NewStakingChangeRequestFilter`: the topics must
be exactly the configuration-change signature hash; the data must hold the
four head words and the in-bounds length-prefixed payload tail; `op` must
fit `uint8` and the configuration number must fit `uint64`. -/
def decodeNewStakingChangeRequest (log : RawLog) : Except DecodeError NewStakingChangeRequestFilter :=
  if log.topics ≠ [topicH256] then .error .topicMismatch
  else if log.data.length < 128 then .error .dataTooShort
  else
    let w0 := beNat (abiWord log.data 0)
    let w1 := beNat (abiWord log.data 1)
    let off := beNat (abiWord log.data 2)
    let w3 := beNat (abiWord log.data 3)
    if log.data.length < off + 32 then .error .dataTooShort
    else
      let payloadLen := beNat ((log.data.drop off).take 32)
      if log.data.length < off + 32 + payloadLen then .error .dataTooShort
      else if 2 ^ 8 ≤ w0 then .error .uintOverflow
      else if 2 ^ 64 ≤ w3 then .error .uintOverflow
      else .ok { op := w0
               , validator := w1 % 2 ^ 160
               , payload := (log.data.drop (off + 32)).take payloadLen
               , configuration_number := w3 }

/-- `ethers_contract::decode_logs`: decode every raw log in order, failing
at the first log that does not decode. -/
def decode_logs : List RawLog → Except DecodeError (List NewStakingChangeRequestFilter)
  | [] => .ok []
  | l :: rest =>
    match decodeNewStakingChangeRequest l with
    | .error e => .error e
    | .ok f =>
      match decode_logs rest with
      | .error e => .error e
      | .ok fs => .ok (f :: fs)

/-! ## The staking domain objects (`ipc_actors_abis::top_down_finality_facet`) -/

/-- `StakingChange`: operation code, opaque payload, validator identity. -/
structure StakingChange where
  op : Nat
  payload : List Nat
  validator : Nat
deriving DecidableEq, Repr

/-- `StakingChangeRequest`: a staking change keyed by its configuration
number. -/
structure StakingChangeRequest where
  configuration_number : Nat
  change : StakingChange
deriving DecidableEq, Repr

/-- `ParentFinality`: the checkpoint (height, 32-byte digest) committed to
the finality facet. -/
structure ParentFinality where
  height : Nat
  block_hash : List Nat
deriving DecidableEq, Repr

/-- The mapping from a decoded event record to a `StakingChangeRequest`
(upgrade01.rs lines 102-111). -/
def toStakingChangeRequest (p : NewStakingChangeRequestFilter) : StakingChangeRequest :=
  { configuration_number := p.configuration_number
  , change := { op := p.op, payload := p.payload, validator := p.validator } }

/-- The 49 compiled-in raw configuration-change blobs
(upgrade01.rs lines 46-96), verbatim from the source. -/
def raw_configuration_changes : List String :=
  [
    "0x00000000000000000000000000000000000000000000000000000000000000030000000000000000000000007e6bcac9b600394ea1c7c38ea72cc56f57374c870000000000000000000000000000000000000000000000000000000000000080000000000000000000000000000000000000000000000000000000000000001200000000000000000000000000000000000000000000000000000000000000c0000000000000000000000000000000000000000000000000000000000000004000000000000000000000000000000000000000000000000000000000000000010000000000000000000000000000000000000000000000000000000000000041045197627a4a7f89458469255afb8711ab4c7bc4a76281376cb361c29bd0d9626758d47feadf43d77f843725cbad419e655d8689369c1ce59ccdaa67d47bd0ddf700000000000000000000000000000000000000000000000000000000000000",
    "0x0000000000000000000000000000000000000000000000000000000000000003000000000000000000000000bf20b7664fefb791a1dbb9a9308e1573063113c60000000000000000000000000000000000000000000000000000000000000080000000000000000000000000000000000000000000000000000000000000001300000000000000000000000000000000000000000000000000000000000000c0000000000000000000000000000000000000000000000000000000000000004000000000000000000000000000000000000000000000000000000000000000010000000000000000000000000000000000000000000000000000000000000041046ed27e5db71c4e7ec3b4498ee06913a59183e5c87f169652c92e7cc042f629088ef949c488135055722b8237009e7a77f4337185cbc89a6be60c0a63cfc72a2e00000000000000000000000000000000000000000000000000000000000000",
    "0x00000000000000000000000000000000000000000000000000000000000000030000000000000000000000000a35741418da8238c8ba4c50c83a660164f75daf0000000000000000000000000000000000000000000000000000000000000080000000000000000000000000000000000000000000000000000000000000001400000000000000000000000000000000000000000000000000000000000000c00000000000000000000000000000000000000000000000000000000000000040000000000000000000000000000000000000000000000000000000000000000100000000000000000000000000000000000000000000000000000000000000410475f2cbafbf3425ec8bccd96471ca65f8287f7cf51632a02de07e755e602a3f8fde1764936bd39dc72bf6cb52ba4cb793d42e5ec39465593f12e7a9d79c89d9ce00000000000000000000000000000000000000000000000000000000000000",
    "0x0000000000000000000000000000000000000000000000000000000000000003000000000000000000000000e8e8ed5fd65a10200971c3e1e731c1aa49e994b50000000000000000000000000000000000000000000000000000000000000080000000000000000000000000000000000000000000000000000000000000001500000000000000000000000000000000000000000000000000000000000000c00000000000000000000000000000000000000000000000000000000000000040000000000000000000000000000000000000000000000000000000000000000100000000000000000000000000000000000000000000000000000000000000410454d737a8759eafadcf00a45708a8d602942ff86d22f0e312a40d32dfab30b665e324a045ef3871d0fa448764317f783a3185bc5541c0c141fdea96f971dda0fb00000000000000000000000000000000000000000000000000000000000000",
    "0x0000000000000000000000000000000000000000000000000000000000000003000000000000000000000000b07e170eff06ce9b96d1d1710ce404382aebea880000000000000000000000000000000000000000000000000000000000000080000000000000000000000000000000000000000000000000000000000000001600000000000000000000000000000000000000000000000000000000000000c000000000000000000000000000000000000000000000000000000000000000400000000000000000000000000000000000000000000000000000000000000001000000000000000000000000000000000000000000000000000000000000004104683bac106c55e182fd47ddea0b200fc26a73b9c757c7a95ca166bb55ce468dbfda0933e569ce712138e36eed18b60cc7e1bd327296eeda9ddbe522798ede229000000000000000000000000000000000000000000000000000000000000000",
    "0x00000000000000000000000000000000000000000000000000000000000000030000000000000000000000008c271ba18b42fa6c414f4c668d6d893551d4cd850000000000000000000000000000000000000000000000000000000000000080000000000000000000000000000000000000000000000000000000000000001700000000000000000000000000000000000000000000000000000000000000c0000000000000000000000000000000000000000000000000000000000000004000000000000000000000000000000000000000000000000000000000000000010000000000000000000000000000000000000000000000000000000000000041040c42d1f0f193a07c2bed6650417fe10fe6a50eed429bdd54bbe993b5f5f48ddf8a7b922551d552b06547d049b8c2eef5a05b16ffa9414d12f2e9dac582756e0100000000000000000000000000000000000000000000000000000000000000",
    "0x00000000000000000000000000000000000000000000000000000000000000030000000000000000000000006d8ffd463fcd5fa48ea114defc015831995e42070000000000000000000000000000000000000000000000000000000000000080000000000000000000000000000000000000000000000000000000000000001800000000000000000000000000000000000000000000000000000000000000c00000000000000000000000000000000000000000000000000000000000000040000000000000000000000000000000000000000000000000000000000000000100000000000000000000000000000000000000000000000000000000000000410469ffff7be09bb0ea4b14d32f7d87621119ee8093937e1ea4937797dd16cece9b963363df3a2845b6928dab2c3744129ea4afe454654b2cd0a0301f5665fecdd700000000000000000000000000000000000000000000000000000000000000",
    "0x0000000000000000000000000000000000000000000000000000000000000003000000000000000000000000dc83188b36744a884af3919493762dddc77b373e0000000000000000000000000000000000000000000000000000000000000080000000000000000000000000000000000000000000000000000000000000001900000000000000000000000000000000000000000000000000000000000000c00000000000000000000000000000000000000000000000000000000000000040000000000000000000000000000000000000000000000000000000000000000100000000000000000000000000000000000000000000000000000000000000410432eb1d0014286f77449cf789e2768eaa2502ff102d5efa9177cc59a4a1df00bc978cac7335ed88e42cbc1c1e4e018d2ca3862c683903cfa66b9684a44b2a51d200000000000000000000000000000000000000000000000000000000000000",
    "0x00000000000000000000000000000000000000000000000000000000000000030000000000000000000000007e6bcac9b600394ea1c7c38ea72cc56f57374c870000000000000000000000000000000000000000000000000000000000000080000000000000000000000000000000000000000000000000000000000000001a00000000000000000000000000000000000000000000000000000000000000c0000000000000000000000000000000000000000000000000000000000000004000000000000000000000000000000000000000000000000000000000000000010000000000000000000000000000000000000000000000000000000000000041045197627a4a7f89458469255afb8711ab4c7bc4a76281376cb361c29bd0d9626758d47feadf43d77f843725cbad419e655d8689369c1ce59ccdaa67d47bd0ddf700000000000000000000000000000000000000000000000000000000000000",
    "0x0000000000000000000000000000000000000000000000000000000000000003000000000000000000000000bf20b7664fefb791a1dbb9a9308e1573063113c60000000000000000000000000000000000000000000000000000000000000080000000000000000000000000000000000000000000000000000000000000001b00000000000000000000000000000000000000000000000000000000000000c0000000000000000000000000000000000000000000000000000000000000004000000000000000000000000000000000000000000000000000000000000000010000000000000000000000000000000000000000000000000000000000000041046ed27e5db71c4e7ec3b4498ee06913a59183e5c87f169652c92e7cc042f629088ef949c488135055722b8237009e7a77f4337185cbc89a6be60c0a63cfc72a2e00000000000000000000000000000000000000000000000000000000000000",
    "0x00000000000000000000000000000000000000000000000000000000000000030000000000000000000000000a35741418da8238c8ba4c50c83a660164f75daf0000000000000000000000000000000000000000000000000000000000000080000000000000000000000000000000000000000000000000000000000000001c00000000000000000000000000000000000000000000000000000000000000c00000000000000000000000000000000000000000000000000000000000000040000000000000000000000000000000000000000000000000000000000000000100000000000000000000000000000000000000000000000000000000000000410475f2cbafbf3425ec8bccd96471ca65f8287f7cf51632a02de07e755e602a3f8fde1764936bd39dc72bf6cb52ba4cb793d42e5ec39465593f12e7a9d79c89d9ce00000000000000000000000000000000000000000000000000000000000000",
    "0x0000000000000000000000000000000000000000000000000000000000000003000000000000000000000000e8e8ed5fd65a10200971c3e1e731c1aa49e994b50000000000000000000000000000000000000000000000000000000000000080000000000000000000000000000000000000000000000000000000000000001d00000000000000000000000000000000000000000000000000000000000000c00000000000000000000000000000000000000000000000000000000000000040000000000000000000000000000000000000000000000000000000000000000100000000000000000000000000000000000000000000000000000000000000410454d737a8759eafadcf00a45708a8d602942ff86d22f0e312a40d32dfab30b665e324a045ef3871d0fa448764317f783a3185bc5541c0c141fdea96f971dda0fb00000000000000000000000000000000000000000000000000000000000000",
    "0x0000000000000000000000000000000000000000000000000000000000000003000000000000000000000000b07e170eff06ce9b96d1d1710ce404382aebea880000000000000000000000000000000000000000000000000000000000000080000000000000000000000000000000000000000000000000000000000000001e00000000000000000000000000000000000000000000000000000000000000c000000000000000000000000000000000000000000000000000000000000000400000000000000000000000000000000000000000000000000000000000000001000000000000000000000000000000000000000000000000000000000000004104683bac106c55e182fd47ddea0b200fc26a73b9c757c7a95ca166bb55ce468dbfda0933e569ce712138e36eed18b60cc7e1bd327296eeda9ddbe522798ede229000000000000000000000000000000000000000000000000000000000000000",
    "0x00000000000000000000000000000000000000000000000000000000000000030000000000000000000000008c271ba18b42fa6c414f4c668d6d893551d4cd850000000000000000000000000000000000000000000000000000000000000080000000000000000000000000000000000000000000000000000000000000001f00000000000000000000000000000000000000000000000000000000000000c0000000000000000000000000000000000000000000000000000000000000004000000000000000000000000000000000000000000000000000000000000000010000000000000000000000000000000000000000000000000000000000000041040c42d1f0f193a07c2bed6650417fe10fe6a50eed429bdd54bbe993b5f5f48ddf8a7b922551d552b06547d049b8c2eef5a05b16ffa9414d12f2e9dac582756e0100000000000000000000000000000000000000000000000000000000000000",
    "0x00000000000000000000000000000000000000000000000000000000000000030000000000000000000000006d8ffd463fcd5fa48ea114defc015831995e42070000000000000000000000000000000000000000000000000000000000000080000000000000000000000000000000000000000000000000000000000000002000000000000000000000000000000000000000000000000000000000000000c00000000000000000000000000000000000000000000000000000000000000040000000000000000000000000000000000000000000000000000000000000000100000000000000000000000000000000000000000000000000000000000000410469ffff7be09bb0ea4b14d32f7d87621119ee8093937e1ea4937797dd16cece9b963363df3a2845b6928dab2c3744129ea4afe454654b2cd0a0301f5665fecdd700000000000000000000000000000000000000000000000000000000000000",
    "0x0000000000000000000000000000000000000000000000000000000000000003000000000000000000000000dc83188b36744a884af3919493762dddc77b373e0000000000000000000000000000000000000000000000000000000000000080000000000000000000000000000000000000000000000000000000000000002100000000000000000000000000000000000000000000000000000000000000c00000000000000000000000000000000000000000000000000000000000000040000000000000000000000000000000000000000000000000000000000000000100000000000000000000000000000000000000000000000000000000000000410432eb1d0014286f77449cf789e2768eaa2502ff102d5efa9177cc59a4a1df00bc978cac7335ed88e42cbc1c1e4e018d2ca3862c683903cfa66b9684a44b2a51d200000000000000000000000000000000000000000000000000000000000000",
    "0x00000000000000000000000000000000000000000000000000000000000000030000000000000000000000007e6bcac9b600394ea1c7c38ea72cc56f57374c870000000000000000000000000000000000000000000000000000000000000080000000000000000000000000000000000000000000000000000000000000002200000000000000000000000000000000000000000000000000000000000000c0000000000000000000000000000000000000000000000000000000000000004000000000000000000000000000000000000000000000000000000000000000010000000000000000000000000000000000000000000000000000000000000041045197627a4a7f89458469255afb8711ab4c7bc4a76281376cb361c29bd0d9626758d47feadf43d77f843725cbad419e655d8689369c1ce59ccdaa67d47bd0ddf700000000000000000000000000000000000000000000000000000000000000",
    "0x0000000000000000000000000000000000000000000000000000000000000003000000000000000000000000bf20b7664fefb791a1dbb9a9308e1573063113c60000000000000000000000000000000000000000000000000000000000000080000000000000000000000000000000000000000000000000000000000000002300000000000000000000000000000000000000000000000000000000000000c0000000000000000000000000000000000000000000000000000000000000004000000000000000000000000000000000000000000000000000000000000000010000000000000000000000000000000000000000000000000000000000000041046ed27e5db71c4e7ec3b4498ee06913a59183e5c87f169652c92e7cc042f629088ef949c488135055722b8237009e7a77f4337185cbc89a6be60c0a63cfc72a2e00000000000000000000000000000000000000000000000000000000000000",
    "0x00000000000000000000000000000000000000000000000000000000000000030000000000000000000000000a35741418da8238c8ba4c50c83a660164f75daf0000000000000000000000000000000000000000000000000000000000000080000000000000000000000000000000000000000000000000000000000000002400000000000000000000000000000000000000000000000000000000000000c00000000000000000000000000000000000000000000000000000000000000040000000000000000000000000000000000000000000000000000000000000000100000000000000000000000000000000000000000000000000000000000000410475f2cbafbf3425ec8bccd96471ca65f8287f7cf51632a02de07e755e602a3f8fde1764936bd39dc72bf6cb52ba4cb793d42e5ec39465593f12e7a9d79c89d9ce00000000000000000000000000000000000000000000000000000000000000",
    "0x0000000000000000000000000000000000000000000000000000000000000003000000000000000000000000e8e8ed5fd65a10200971c3e1e731c1aa49e994b50000000000000000000000000000000000000000000000000000000000000080000000000000000000000000000000000000000000000000000000000000002500000000000000000000000000000000000000000000000000000000000000c00000000000000000000000000000000000000000000000000000000000000040000000000000000000000000000000000000000000000000000000000000000100000000000000000000000000000000000000000000000000000000000000410454d737a8759eafadcf00a45708a8d602942ff86d22f0e312a40d32dfab30b665e324a045ef3871d0fa448764317f783a3185bc5541c0c141fdea96f971dda0fb00000000000000000000000000000000000000000000000000000000000000",
    "0x0000000000000000000000000000000000000000000000000000000000000003000000000000000000000000b07e170eff06ce9b96d1d1710ce404382aebea880000000000000000000000000000000000000000000000000000000000000080000000000000000000000000000000000000000000000000000000000000002600000000000000000000000000000000000000000000000000000000000000c000000000000000000000000000000000000000000000000000000000000000400000000000000000000000000000000000000000000000000000000000000001000000000000000000000000000000000000000000000000000000000000004104683bac106c55e182fd47ddea0b200fc26a73b9c757c7a95ca166bb55ce468dbfda0933e569ce712138e36eed18b60cc7e1bd327296eeda9ddbe522798ede229000000000000000000000000000000000000000000000000000000000000000",
    "0x00000000000000000000000000000000000000000000000000000000000000030000000000000000000000008c271ba18b42fa6c414f4c668d6d893551d4cd850000000000000000000000000000000000000000000000000000000000000080000000000000000000000000000000000000000000000000000000000000002700000000000000000000000000000000000000000000000000000000000000c0000000000000000000000000000000000000000000000000000000000000004000000000000000000000000000000000000000000000000000000000000000010000000000000000000000000000000000000000000000000000000000000041040c42d1f0f193a07c2bed6650417fe10fe6a50eed429bdd54bbe993b5f5f48ddf8a7b922551d552b06547d049b8c2eef5a05b16ffa9414d12f2e9dac582756e0100000000000000000000000000000000000000000000000000000000000000",
    "0x00000000000000000000000000000000000000000000000000000000000000030000000000000000000000006d8ffd463fcd5fa48ea114defc015831995e42070000000000000000000000000000000000000000000000000000000000000080000000000000000000000000000000000000000000000000000000000000002800000000000000000000000000000000000000000000000000000000000000c00000000000000000000000000000000000000000000000000000000000000040000000000000000000000000000000000000000000000000000000000000000100000000000000000000000000000000000000000000000000000000000000410469ffff7be09bb0ea4b14d32f7d87621119ee8093937e1ea4937797dd16cece9b963363df3a2845b6928dab2c3744129ea4afe454654b2cd0a0301f5665fecdd700000000000000000000000000000000000000000000000000000000000000",
    "0x000000000000000000000000000000000000000000000000000000000000000300000000000000000000000094c72dbb3fa675eb4be1b3ccdfc6cf851092cbbc0000000000000000000000000000000000000000000000000000000000000080000000000000000000000000000000000000000000000000000000000000002900000000000000000000000000000000000000000000000000000000000000c0000000000000000000000000000000000000000000000000000000000000004000000000000000000000000000000000000000000000000000000000000000010000000000000000000000000000000000000000000000000000000000000041047d190364263990e8b5bc45032baac70d7ed7fc44cac3a003fd74a87ede4ee080730655961af70bfe40575eb0ce67eaa346b246ba2968319d6e9ae27e41ef06a300000000000000000000000000000000000000000000000000000000000000",
    "0x00000000000000000000000000000000000000000000000000000000000000030000000000000000000000006ce52ffa12a9550a55675f6a9c6cf55b5eb944f60000000000000000000000000000000000000000000000000000000000000080000000000000000000000000000000000000000000000000000000000000002a00000000000000000000000000000000000000000000000000000000000000c000000000000000000000000000000000000000000000000000000000000000400000000000000000000000000000000000000000000000000000000000000001000000000000000000000000000000000000000000000000000000000000004104f2c72208decfad0f769d8de7dcfc5292d260c63c4d7324b792d55a79ca97cf5b945482033863c49c7c1b33db3411e54443e449f3db91e8c1264d820a56dcffc900000000000000000000000000000000000000000000000000000000000000",
    "0x0000000000000000000000000000000000000000000000000000000000000003000000000000000000000000dc83188b36744a884af3919493762dddc77b373e0000000000000000000000000000000000000000000000000000000000000080000000000000000000000000000000000000000000000000000000000000002b00000000000000000000000000000000000000000000000000000000000000c00000000000000000000000000000000000000000000000000000000000000040000000000000000000000000000000000000000000000000000000000000000100000000000000000000000000000000000000000000000000000000000000410432eb1d0014286f77449cf789e2768eaa2502ff102d5efa9177cc59a4a1df00bc978cac7335ed88e42cbc1c1e4e018d2ca3862c683903cfa66b9684a44b2a51d200000000000000000000000000000000000000000000000000000000000000",
    "0x00000000000000000000000000000000000000000000000000000000000000030000000000000000000000007e6bcac9b600394ea1c7c38ea72cc56f57374c870000000000000000000000000000000000000000000000000000000000000080000000000000000000000000000000000000000000000000000000000000002c00000000000000000000000000000000000000000000000000000000000000c0000000000000000000000000000000000000000000000000000000000000004000000000000000000000000000000000000000000000000000000000000000010000000000000000000000000000000000000000000000000000000000000041045197627a4a7f89458469255afb8711ab4c7bc4a76281376cb361c29bd0d9626758d47feadf43d77f843725cbad419e655d8689369c1ce59ccdaa67d47bd0ddf700000000000000000000000000000000000000000000000000000000000000",
    "0x0000000000000000000000000000000000000000000000000000000000000003000000000000000000000000bf20b7664fefb791a1dbb9a9308e1573063113c60000000000000000000000000000000000000000000000000000000000000080000000000000000000000000000000000000000000000000000000000000002d00000000000000000000000000000000000000000000000000000000000000c0000000000000000000000000000000000000000000000000000000000000004000000000000000000000000000000000000000000000000000000000000000010000000000000000000000000000000000000000000000000000000000000041046ed27e5db71c4e7ec3b4498ee06913a59183e5c87f169652c92e7cc042f629088ef949c488135055722b8237009e7a77f4337185cbc89a6be60c0a63cfc72a2e00000000000000000000000000000000000000000000000000000000000000",
    "0x00000000000000000000000000000000000000000000000000000000000000030000000000000000000000000a35741418da8238c8ba4c50c83a660164f75daf0000000000000000000000000000000000000000000000000000000000000080000000000000000000000000000000000000000000000000000000000000002e00000000000000000000000000000000000000000000000000000000000000c00000000000000000000000000000000000000000000000000000000000000040000000000000000000000000000000000000000000000000000000000000000100000000000000000000000000000000000000000000000000000000000000410475f2cbafbf3425ec8bccd96471ca65f8287f7cf51632a02de07e755e602a3f8fde1764936bd39dc72bf6cb52ba4cb793d42e5ec39465593f12e7a9d79c89d9ce00000000000000000000000000000000000000000000000000000000000000",
    "0x0000000000000000000000000000000000000000000000000000000000000003000000000000000000000000e8e8ed5fd65a10200971c3e1e731c1aa49e994b50000000000000000000000000000000000000000000000000000000000000080000000000000000000000000000000000000000000000000000000000000002f00000000000000000000000000000000000000000000000000000000000000c00000000000000000000000000000000000000000000000000000000000000040000000000000000000000000000000000000000000000000000000000000000100000000000000000000000000000000000000000000000000000000000000410454d737a8759eafadcf00a45708a8d602942ff86d22f0e312a40d32dfab30b665e324a045ef3871d0fa448764317f783a3185bc5541c0c141fdea96f971dda0fb00000000000000000000000000000000000000000000000000000000000000",
    "0x0000000000000000000000000000000000000000000000000000000000000003000000000000000000000000b07e170eff06ce9b96d1d1710ce404382aebea880000000000000000000000000000000000000000000000000000000000000080000000000000000000000000000000000000000000000000000000000000003000000000000000000000000000000000000000000000000000000000000000c000000000000000000000000000000000000000000000000000000000000000400000000000000000000000000000000000000000000000000000000000000001000000000000000000000000000000000000000000000000000000000000004104683bac106c55e182fd47ddea0b200fc26a73b9c757c7a95ca166bb55ce468dbfda0933e569ce712138e36eed18b60cc7e1bd327296eeda9ddbe522798ede229000000000000000000000000000000000000000000000000000000000000000",
    "0x00000000000000000000000000000000000000000000000000000000000000030000000000000000000000008c271ba18b42fa6c414f4c668d6d893551d4cd850000000000000000000000000000000000000000000000000000000000000080000000000000000000000000000000000000000000000000000000000000003100000000000000000000000000000000000000000000000000000000000000c0000000000000000000000000000000000000000000000000000000000000004000000000000000000000000000000000000000000000000000000000000000010000000000000000000000000000000000000000000000000000000000000041040c42d1f0f193a07c2bed6650417fe10fe6a50eed429bdd54bbe993b5f5f48ddf8a7b922551d552b06547d049b8c2eef5a05b16ffa9414d12f2e9dac582756e0100000000000000000000000000000000000000000000000000000000000000",
    "0x00000000000000000000000000000000000000000000000000000000000000030000000000000000000000006d8ffd463fcd5fa48ea114defc015831995e42070000000000000000000000000000000000000000000000000000000000000080000000000000000000000000000000000000000000000000000000000000003200000000000000000000000000000000000000000000000000000000000000c00000000000000000000000000000000000000000000000000000000000000040000000000000000000000000000000000000000000000000000000000000000100000000000000000000000000000000000000000000000000000000000000410469ffff7be09bb0ea4b14d32f7d87621119ee8093937e1ea4937797dd16cece9b963363df3a2845b6928dab2c3744129ea4afe454654b2cd0a0301f5665fecdd700000000000000000000000000000000000000000000000000000000000000",
    "0x000000000000000000000000000000000000000000000000000000000000000300000000000000000000000094c72dbb3fa675eb4be1b3ccdfc6cf851092cbbc0000000000000000000000000000000000000000000000000000000000000080000000000000000000000000000000000000000000000000000000000000003300000000000000000000000000000000000000000000000000000000000000c0000000000000000000000000000000000000000000000000000000000000004000000000000000000000000000000000000000000000000000000000000000010000000000000000000000000000000000000000000000000000000000000041047d190364263990e8b5bc45032baac70d7ed7fc44cac3a003fd74a87ede4ee080730655961af70bfe40575eb0ce67eaa346b246ba2968319d6e9ae27e41ef06a300000000000000000000000000000000000000000000000000000000000000",
    "0x00000000000000000000000000000000000000000000000000000000000000030000000000000000000000006ce52ffa12a9550a55675f6a9c6cf55b5eb944f60000000000000000000000000000000000000000000000000000000000000080000000000000000000000000000000000000000000000000000000000000003400000000000000000000000000000000000000000000000000000000000000c000000000000000000000000000000000000000000000000000000000000000400000000000000000000000000000000000000000000000000000000000000001000000000000000000000000000000000000000000000000000000000000004104f2c72208decfad0f769d8de7dcfc5292d260c63c4d7324b792d55a79ca97cf5b945482033863c49c7c1b33db3411e54443e449f3db91e8c1264d820a56dcffc900000000000000000000000000000000000000000000000000000000000000",
    "0x0000000000000000000000000000000000000000000000000000000000000003000000000000000000000000dc83188b36744a884af3919493762dddc77b373e0000000000000000000000000000000000000000000000000000000000000080000000000000000000000000000000000000000000000000000000000000003500000000000000000000000000000000000000000000000000000000000000c00000000000000000000000000000000000000000000000000000000000000040000000000000000000000000000000000000000000000000000000000000000100000000000000000000000000000000000000000000000000000000000000410432eb1d0014286f77449cf789e2768eaa2502ff102d5efa9177cc59a4a1df00bc978cac7335ed88e42cbc1c1e4e018d2ca3862c683903cfa66b9684a44b2a51d200000000000000000000000000000000000000000000000000000000000000",
    "0x000000000000000000000000000000000000000000000000000000000000000300000000000000000000000004dd467171b754b6c7f7c38acbdc1fcf20a3c3300000000000000000000000000000000000000000000000000000000000000080000000000000000000000000000000000000000000000000000000000000003600000000000000000000000000000000000000000000000000000000000000c000000000000000000000000000000000000000000000000000000000000000400000000000000000000000000000000000000000000000000000000000000001000000000000000000000000000000000000000000000000000000000000004104d04c1f2e01c8928cb7e55e0847b5be79cf8360f4a6a01144e9ea4e570e9116a621b96e0c500ec7cb53768195cad13b161b8f5c327f9c7f78394af4bd081dd4d600000000000000000000000000000000000000000000000000000000000000",
    "0x00000000000000000000000000000000000000000000000000000000000000030000000000000000000000007e6bcac9b600394ea1c7c38ea72cc56f57374c870000000000000000000000000000000000000000000000000000000000000080000000000000000000000000000000000000000000000000000000000000003700000000000000000000000000000000000000000000000000000000000000c0000000000000000000000000000000000000000000000000000000000000004000000000000000000000000000000000000000000000000000000000000000010000000000000000000000000000000000000000000000000000000000000041045197627a4a7f89458469255afb8711ab4c7bc4a76281376cb361c29bd0d9626758d47feadf43d77f843725cbad419e655d8689369c1ce59ccdaa67d47bd0ddf700000000000000000000000000000000000000000000000000000000000000",
    "0x0000000000000000000000000000000000000000000000000000000000000003000000000000000000000000bf20b7664fefb791a1dbb9a9308e1573063113c60000000000000000000000000000000000000000000000000000000000000080000000000000000000000000000000000000000000000000000000000000003800000000000000000000000000000000000000000000000000000000000000c0000000000000000000000000000000000000000000000000000000000000004000000000000000000000000000000000000000000000000000000000000000010000000000000000000000000000000000000000000000000000000000000041046ed27e5db71c4e7ec3b4498ee06913a59183e5c87f169652c92e7cc042f629088ef949c488135055722b8237009e7a77f4337185cbc89a6be60c0a63cfc72a2e00000000000000000000000000000000000000000000000000000000000000",
    "0x00000000000000000000000000000000000000000000000000000000000000030000000000000000000000000a35741418da8238c8ba4c50c83a660164f75daf0000000000000000000000000000000000000000000000000000000000000080000000000000000000000000000000000000000000000000000000000000003900000000000000000000000000000000000000000000000000000000000000c00000000000000000000000000000000000000000000000000000000000000040000000000000000000000000000000000000000000000000000000000000000100000000000000000000000000000000000000000000000000000000000000410475f2cbafbf3425ec8bccd96471ca65f8287f7cf51632a02de07e755e602a3f8fde1764936bd39dc72bf6cb52ba4cb793d42e5ec39465593f12e7a9d79c89d9ce00000000000000000000000000000000000000000000000000000000000000",
    "0x0000000000000000000000000000000000000000000000000000000000000003000000000000000000000000e8e8ed5fd65a10200971c3e1e731c1aa49e994b50000000000000000000000000000000000000000000000000000000000000080000000000000000000000000000000000000000000000000000000000000003a00000000000000000000000000000000000000000000000000000000000000c00000000000000000000000000000000000000000000000000000000000000040000000000000000000000000000000000000000000000000000000000000000100000000000000000000000000000000000000000000000000000000000000410454d737a8759eafadcf00a45708a8d602942ff86d22f0e312a40d32dfab30b665e324a045ef3871d0fa448764317f783a3185bc5541c0c141fdea96f971dda0fb00000000000000000000000000000000000000000000000000000000000000",
    "0x0000000000000000000000000000000000000000000000000000000000000003000000000000000000000000b07e170eff06ce9b96d1d1710ce404382aebea880000000000000000000000000000000000000000000000000000000000000080000000000000000000000000000000000000000000000000000000000000003b00000000000000000000000000000000000000000000000000000000000000c000000000000000000000000000000000000000000000000000000000000000400000000000000000000000000000000000000000000000000000000000000001000000000000000000000000000000000000000000000000000000000000004104683bac106c55e182fd47ddea0b200fc26a73b9c757c7a95ca166bb55ce468dbfda0933e569ce712138e36eed18b60cc7e1bd327296eeda9ddbe522798ede229000000000000000000000000000000000000000000000000000000000000000",
    "0x00000000000000000000000000000000000000000000000000000000000000030000000000000000000000008c271ba18b42fa6c414f4c668d6d893551d4cd850000000000000000000000000000000000000000000000000000000000000080000000000000000000000000000000000000000000000000000000000000003c00000000000000000000000000000000000000000000000000000000000000c0000000000000000000000000000000000000000000000000000000000000004000000000000000000000000000000000000000000000000000000000000000010000000000000000000000000000000000000000000000000000000000000041040c42d1f0f193a07c2bed6650417fe10fe6a50eed429bdd54bbe993b5f5f48ddf8a7b922551d552b06547d049b8c2eef5a05b16ffa9414d12f2e9dac582756e0100000000000000000000000000000000000000000000000000000000000000",
    "0x00000000000000000000000000000000000000000000000000000000000000030000000000000000000000006d8ffd463fcd5fa48ea114defc015831995e42070000000000000000000000000000000000000000000000000000000000000080000000000000000000000000000000000000000000000000000000000000003d00000000000000000000000000000000000000000000000000000000000000c00000000000000000000000000000000000000000000000000000000000000040000000000000000000000000000000000000000000000000000000000000000100000000000000000000000000000000000000000000000000000000000000410469ffff7be09bb0ea4b14d32f7d87621119ee8093937e1ea4937797dd16cece9b963363df3a2845b6928dab2c3744129ea4afe454654b2cd0a0301f5665fecdd700000000000000000000000000000000000000000000000000000000000000",
    "0x000000000000000000000000000000000000000000000000000000000000000300000000000000000000000094c72dbb3fa675eb4be1b3ccdfc6cf851092cbbc0000000000000000000000000000000000000000000000000000000000000080000000000000000000000000000000000000000000000000000000000000003e00000000000000000000000000000000000000000000000000000000000000c0000000000000000000000000000000000000000000000000000000000000004000000000000000000000000000000000000000000000000000000000000000010000000000000000000000000000000000000000000000000000000000000041047d190364263990e8b5bc45032baac70d7ed7fc44cac3a003fd74a87ede4ee080730655961af70bfe40575eb0ce67eaa346b246ba2968319d6e9ae27e41ef06a300000000000000000000000000000000000000000000000000000000000000",
    "0x00000000000000000000000000000000000000000000000000000000000000030000000000000000000000006ce52ffa12a9550a55675f6a9c6cf55b5eb944f60000000000000000000000000000000000000000000000000000000000000080000000000000000000000000000000000000000000000000000000000000003f00000000000000000000000000000000000000000000000000000000000000c000000000000000000000000000000000000000000000000000000000000000400000000000000000000000000000000000000000000000000000000000000001000000000000000000000000000000000000000000000000000000000000004104f2c72208decfad0f769d8de7dcfc5292d260c63c4d7324b792d55a79ca97cf5b945482033863c49c7c1b33db3411e54443e449f3db91e8c1264d820a56dcffc900000000000000000000000000000000000000000000000000000000000000",
    "0x0000000000000000000000000000000000000000000000000000000000000003000000000000000000000000dc83188b36744a884af3919493762dddc77b373e0000000000000000000000000000000000000000000000000000000000000080000000000000000000000000000000000000000000000000000000000000004000000000000000000000000000000000000000000000000000000000000000c00000000000000000000000000000000000000000000000000000000000000040000000000000000000000000000000000000000000000000000000000000000100000000000000000000000000000000000000000000000000000000000000410432eb1d0014286f77449cf789e2768eaa2502ff102d5efa9177cc59a4a1df00bc978cac7335ed88e42cbc1c1e4e018d2ca3862c683903cfa66b9684a44b2a51d200000000000000000000000000000000000000000000000000000000000000",
    "0x000000000000000000000000000000000000000000000000000000000000000300000000000000000000000004dd467171b754b6c7f7c38acbdc1fcf20a3c3300000000000000000000000000000000000000000000000000000000000000080000000000000000000000000000000000000000000000000000000000000004100000000000000000000000000000000000000000000000000000000000000c000000000000000000000000000000000000000000000000000000000000000400000000000000000000000000000000000000000000000000000000000000001000000000000000000000000000000000000000000000000000000000000004104d04c1f2e01c8928cb7e55e0847b5be79cf8360f4a6a01144e9ea4e570e9116a621b96e0c500ec7cb53768195cad13b161b8f5c327f9c7f78394af4bd081dd4d600000000000000000000000000000000000000000000000000000000000000",
    "0x000000000000000000000000000000000000000000000000000000000000000300000000000000000000000075f46a07294a497914b3c3a851d18fd5354288c00000000000000000000000000000000000000000000000000000000000000080000000000000000000000000000000000000000000000000000000000000004200000000000000000000000000000000000000000000000000000000000000c000000000000000000000000000000000000000000000000000000000000000400000000000000000000000000000000000000000000000000000000000000001000000000000000000000000000000000000000000000000000000000000004104a95c74edbd664d5b02f5771be83320ba623c08684c2919e6b0d14b8770236784616c3f9917c7cb0d1c1df8082439cab5abc7e97b8413b230cb0b99f424c3cb9300000000000000000000000000000000000000000000000000000000000000"
  ]

/-- The compiled-in expected topdown checkpoint digest, as a hex string
(upgrade01.rs line 33). -/
def topdown_hash_hex : String :=
  "768c3521bf3b9003f3bca8c5aad59ee15639843677eed3278954179bfb4d9907"

/-- The compiled-in topdown checkpoint height (upgrade01.rs line 32). -/
def topdown_height : Nat := 1531770

/-- The 32 bytes obtained by hex-decoding `topdown_hash_hex`. -/
def topdown_hash : List Nat := (hexDecode topdown_hash_hex).toOption.getD []

/-- The raw logs produced by `parse_logs` on the compiled-in blobs. -/
def compiledLogs : List RawLog := (parse_logs raw_configuration_changes).toOption.getD []

/-- The decoded event records of the compiled-in blobs. -/
def compiledFilters : List NewStakingChangeRequestFilter :=
  (decode_logs compiledLogs).toOption.getD []

/-- The ordered staking-change batch the patch passes to the staking facet. -/
def compiledChanges : List StakingChangeRequest := compiledFilters.map toStakingChangeRequest


/-! ## The patch procedure (upgrade01.rs lines 29-144)

The closure registered by `store_missing_validator_changes` is embedded as
a function over an abstract facet environment: the two `ContractCaller`
invocations (`store_validator_changes` on the staking facet and
`commit_parent_finality` on the finality facet) become calls into an
environment record that may fail or update an abstract facet state.  The
embedding additionally records the ordered list of steps the procedure
performs, so ordering claims of the specification can be stated. -/

/-- One step performed by the patch procedure, in the order the source
performs them. -/
inductive PatchStep
  | verifyDigest (hashHex : String)
  | decodeBlobs (count : Nat)
  | mapChanges
  | callStaking (batch : List StakingChangeRequest)
  | commitFinality (finality : ParentFinality)
deriving DecidableEq, Repr

/-- The abstract behaviour of the two facet calls made through the
`ContractCaller` against the gateway: each call either fails with a facet
error (an abstract code) or returns the updated facet state. -/
structure FacetEnv (σ : Type) where
  storeValidatorChanges : σ → List StakingChangeRequest → Except Nat σ
  commitParentFinality : σ → ParentFinality → Except Nat σ

/-- The errors the patch closure can return. -/
inductive PatchError
  | hexErr (e : HexError)
  | notBytes32
  | hashNotEqual
  | decodeErr (e : DecodeError)
  | facetErr (code : Nat)
deriving DecidableEq, Repr

/-- The outcome of running the patch closure: the steps performed in
order, the final facet state, and the error if the closure failed. -/
structure PatchOutcome (σ : Type) where
  steps : List PatchStep
  state : σ
  error : Option PatchError
deriving DecidableEq, Repr

/-- The body of the patch closure (upgrade01.rs lines 29-144), with the
compiled-in digest hex string generalised to the parameter `hashHex` so the
digest-verification branches can be exercised: (lines 35-37) hex-decode the
digest and require 32 bytes; (lines 39-41) re-encode and compare with the
original string, failing with the `hash not equal` error on mismatch;
(line 98) `parse_logs` on the compiled blobs; (lines 100-112) decode the
logs and map them to the ordered `StakingChangeRequest` batch; (line 129)
one staking-facet call with the whole batch; (lines 131-137) one
finality-facet call committing the checkpoint (height, digest).  A step is
recorded when the source performs it; an error aborts the remaining
steps. -/
def patchWithHash (σ : Type) (hashHex : String) (env : FacetEnv σ) (st : σ) : PatchOutcome σ :=
  match hexDecode hashHex with
  | .error e => { steps := [], state := st, error := some (.hexErr e) }
  | .ok bytes =>
    if bytes.length = 32 then
      if hexEncode bytes = hashHex then
        match parse_logs raw_configuration_changes with
        | .error e =>
          { steps := [.verifyDigest hashHex], state := st, error := some (.hexErr e) }
        | .ok logs =>
          match decode_logs logs with
          | .error e =>
            { steps := [.verifyDigest hashHex, .decodeBlobs logs.length]
            , state := st, error := some (.decodeErr e) }
          | .ok fs =>
            let changes := fs.map toStakingChangeRequest
            match env.storeValidatorChanges st changes with
            | .error c =>
              { steps := [.verifyDigest hashHex, .decodeBlobs logs.length, .mapChanges,
                          .callStaking changes]
              , state := st, error := some (.facetErr c) }
            | .ok st1 =>
              let finality : ParentFinality := { height := topdown_height, block_hash := bytes }
              match env.commitParentFinality st1 finality with
              | .error c =>
                { steps := [.verifyDigest hashHex, .decodeBlobs logs.length, .mapChanges,
                            .callStaking changes, .commitFinality finality]
                , state := st1, error := some (.facetErr c) }
              | .ok st2 =>
                { steps := [.verifyDigest hashHex, .decodeBlobs logs.length, .mapChanges,
                            .callStaking changes, .commitFinality finality]
                , state := st2, error := none }
      else { steps := [.verifyDigest hashHex], state := st, error := some .hashNotEqual }
    else { steps := [], state := st, error := some .notBytes32 }

/-- The patch closure exactly as compiled, using the compiled-in digest. -/
def patch (σ : Type) (env : FacetEnv σ) (st : σ) : PatchOutcome σ :=
  patchWithHash σ topdown_hash_hex env st

/-- A facet environment over the trivial state whose calls always
succeed. -/
def pureEnv : FacetEnv Unit :=
  { storeValidatorChanges := fun _ _ => .ok ()
  , commitParentFinality := fun _ _ => .ok () }

/-! ## The upgrade scheduler (registration) -/

/-- Modelled from the spec: an Upgrade Descriptor is an immutable record of
the target chain identity, the trigger height, an optional expected
post-state marker and a patch procedure; the descriptor type itself
(`fendermint_vm_interpreter::fvm::upgrades::Upgrade`) is not under `src/`,
so the patch procedure is represented by an opaque numeric tag. -/
structure Upgrade where
  chain_id : Nat
  block_height : Nat
  new_app_version : Option Nat
  patchTag : Nat
deriving DecidableEq, Repr

/-- `DuplicateKeyError`: two descriptors share a (chain, height) key. -/
inductive AddError
  | duplicateKey
deriving DecidableEq, Repr

/-- Modelled from the spec: the Upgrade Scheduler is a registry keyed by
(chain identity, height); the concrete type
(`fendermint_vm_interpreter::fvm::upgrades::UpgradeScheduler`) is not under
`src/`.  Only the registered keys matter for registration claims. -/
structure UpgradeScheduler where
  entries : List (Nat × Nat)
deriving DecidableEq, Repr

/-- Modelled from the spec: `UpgradeScheduler::add` fails with
`DuplicateKeyError` when a descriptor with the same (chain identity,
height) key is already registered, and otherwise appends the
descriptor. -/
def UpgradeScheduler.add (s : UpgradeScheduler) (u : Upgrade) : Except AddError UpgradeScheduler :=
  if (u.chain_id, u.block_height) ∈ s.entries then .error .duplicateKey
  else .ok { entries := s.entries ++ [(u.chain_id, u.block_height)] }

/-- `store_missing_validator_changes` (upgrade01.rs lines 24-145) returns
the result of `UpgradeScheduler::add` on the descriptor it builds for
(CHAIN_ID, block_height); the chain identity constant lives outside `src/`
and is passed as the parameter `chainId`. -/
def store_missing_validator_changes (chainId : Nat) (s : UpgradeScheduler) (block_height : Nat) :
    Except AddError UpgradeScheduler :=
  s.add { chain_id := chainId, block_height := block_height
        , new_app_version := none, patchTag := 1 }

/-! ## The block-hash query handler (block_hash.rs)

`BlockHashHandler::handle` depends on collaborators outside `src/`
(`SubnetID::from_str`, the `SubnetManagerPool`, `check_subnet` and the
manager's `get_block_hash`); they are abstracted as an environment record
of pure functions, with subnet identities, connections and subnet
configurations as abstract numeric handles. -/

/-- `BlockHashParams`: the request carries a subnet id string and a chain
epoch. -/
structure BlockHashParams where
  subnet_id : String
  height : Int
deriving DecidableEq, Repr

/-- The collaborators of `BlockHashHandler::handle`, as abstract pure
functions: the subnet-id parser, the connection pool lookup, the subnet
configuration of a connection, the `check_subnet` validation, and the
manager's `get_block_hash` query. -/
structure BlockHashEnv where
  parseSubnetId : String → Except String Nat
  poolGet : Nat → Option Nat
  connSubnet : Nat → Nat
  checkSubnet : Nat → Except String Unit
  getBlockHash : Nat → Int → Except String (List Nat)

/-- `BlockHashHandler::handle` (block_hash.rs lines 38-49): parse the
subnet id, look up a pooled connection for it (failing with `target parent
subnet not found` when absent), validate the connection's subnet
configuration with `check_subnet`, and forward `get_block_hash` for the
requested height, returning its result. -/
def BlockHashHandler.handle (env : BlockHashEnv) (request : BlockHashParams) :
    Except String (List Nat) :=
  match env.parseSubnetId request.subnet_id with
  | .error e => .error e
  | .ok subnet =>
    match env.poolGet subnet with
    | none => .error "target parent subnet not found"
    | some conn =>
      match env.checkSubnet (env.connSubnet conn) with
      | .error e => .error e
      | .ok _ => env.getBlockHash conn request.height


/-! ## Shared lemmas -/

/-- `parse_logs` succeeds on the compiled-in blobs. -/
theorem parse_compiled_eq : parse_logs raw_configuration_changes = .ok compiledLogs := by rfl

/-- `decode_logs` succeeds on the parsed compiled-in blobs. -/
theorem decode_compiled_eq : decode_logs compiledLogs = .ok compiledFilters := by rfl

/-! ## Claims about `parse_logs` -/

/-- C3: for every input list of raw blob strings, `parse_logs` either
returns exactly one `RawLog` per input blob in input order, each carrying
the single fixed configuration-change topic and the hex-decoded data of its
blob, or fails with the decode error of some blob that is not well-formed
hex input. -/
theorem c3_parse_logs_one_per_blob (blobs : List String) :
    (∃ logs, parse_logs blobs = .ok logs ∧
      List.Forall₂ (fun b log =>
        hexDecode (logHexBody b) = .ok log.data ∧ log.topics = [topicH256]) blobs logs) ∨
    (∃ e, parse_logs blobs = .error e ∧ ∃ b ∈ blobs, hexDecode (logHexBody b) = .error e) := by
  induction blobs with
  | nil => exact .inl ⟨[], rfl, .nil⟩
  | cons s rest ih =>
    cases hdec : hexDecode (logHexBody s) with
    | error e =>
      refine .inr ⟨e, ?_, s, List.mem_cons_self s rest, hdec⟩
      unfold parse_logs
      rw [hdec]
    | ok data =>
      cases ih with
      | inl hok =>
        obtain ⟨logs, hlogs, hall⟩ := hok
        refine .inl ⟨{ data := data, topics := [topicH256] } :: logs, ?_, .cons ⟨hdec, rfl⟩ hall⟩
        unfold parse_logs
        rw [hdec, hlogs]
      | inr herr =>
        obtain ⟨e, he, b, hb, hbe⟩ := herr
        refine .inr ⟨e, ?_, b, List.mem_cons_of_mem s hb, hbe⟩
        unfold parse_logs
        rw [hdec, he]

/-- C7: `parse_logs` is pure and deterministic; two runs on identical
input yield bit-identical output. -/
theorem c7_parse_logs_deterministic (l1 l2 : List String) (h : l1 = l2) :
    parse_logs l1 = parse_logs l2 := by
  rw [h]

/-- C7 witness: determinism instantiated on the compiled-in blob list. -/
theorem c7_parse_logs_deterministic_witness :
    parse_logs raw_configuration_changes = parse_logs raw_configuration_changes :=
  c7_parse_logs_deterministic raw_configuration_changes raw_configuration_changes rfl

/-! ## Claims about the scheduler registration -/

/-- C5: once a descriptor with a given (chain identity, height) key is
registered, adding any second descriptor with the same key fails with
`DuplicateKeyError`, whichever of the two descriptors is registered first,
and `store_missing_validator_changes` propagates the failure of the `add`
it performs for its own (chain identity, height) key. -/
theorem c5_duplicate_add_fails (s s' : UpgradeScheduler) (u1 : Upgrade)
    (chainId height : Nat)
    (hchain : u1.chain_id = chainId) (hheight : u1.block_height = height)
    (hadd : s.add u1 = .ok s') :
    (∀ u2 : Upgrade, u2.chain_id = chainId → u2.block_height = height →
      s'.add u2 = .error .duplicateKey) ∧
    store_missing_validator_changes chainId s' height = .error .duplicateKey := by
  unfold UpgradeScheduler.add at hadd
  by_cases hmem : (u1.chain_id, u1.block_height) ∈ s.entries
  · rw [if_pos hmem] at hadd
    exact absurd hadd (by simp)
  · rw [if_neg hmem] at hadd
    have hs' : s' = { entries := s.entries ++ [(u1.chain_id, u1.block_height)] } := by
      cases hadd
      rfl
    have hkey : (chainId, height) ∈ s'.entries := by
      rw [hs', hchain, hheight]
      simp
    constructor
    · intro u2 h2c h2h
      unfold UpgradeScheduler.add
      rw [h2c, h2h, if_pos hkey]
    · unfold store_missing_validator_changes UpgradeScheduler.add
      rw [if_pos hkey]

/-- C5 witness: the duplicate-key failure and its propagation through
`store_missing_validator_changes`, on a concrete scheduler. -/
theorem c5_duplicate_add_fails_witness :
    UpgradeScheduler.add { entries := [(5, 7)] }
      { chain_id := 5, block_height := 7, new_app_version := some 1, patchTag := 9 } =
        .error .duplicateKey ∧
    store_missing_validator_changes 5 { entries := [(5, 7)] } 7 = .error .duplicateKey := by
  have h := c5_duplicate_add_fails { entries := [] } { entries := [(5, 7)] }
    { chain_id := 5, block_height := 7, new_app_version := none, patchTag := 1 }
    5 7 rfl rfl rfl
  exact ⟨h.1 { chain_id := 5, block_height := 7, new_app_version := some 1, patchTag := 9 }
    rfl rfl, h.2⟩


/-! ## Claims about the block-hash handler -/

/-- An environment in which the subnet id parses, the pool holds a
connection, but `check_subnet` rejects the connection's configuration. -/
def envCheckRejects : BlockHashEnv :=
  { parseSubnetId := fun _ => .ok 0
  , poolGet := fun _ => some 7
  , connSubnet := fun _ => 0
  , checkSubnet := fun _ => .error "subnet config rejected"
  , getBlockHash := fun _ _ => .ok [1] }

/-- A request for `envCheckRejects`. -/
def reqCheckRejects : BlockHashParams := { subnet_id := "/r31415926", height := 100 }

/-- C6 counterexample: in an environment where the subnet id parses and
the pool holds a connection for it, the handler can still return an error
without forwarding `get_block_hash`, because `check_subnet` rejects the
connection's subnet configuration — refuting the claim that parse failure
and a missing connection are the only error cases. -/
theorem c6_counterexample :
    envCheckRejects.parseSubnetId reqCheckRejects.subnet_id = .ok 0 ∧
    envCheckRejects.poolGet 0 = some 7 ∧
    envCheckRejects.getBlockHash 7 reqCheckRejects.height = .ok [1] ∧
    BlockHashHandler.handle envCheckRejects reqCheckRejects =
      .error "subnet config rejected" := ⟨rfl, rfl, rfl, rfl⟩

/-- C6 (amended): `BlockHashHandler::handle` returns an error when the
subnet id does not parse, when the pool holds no connection keyed by the
parsed identity, or when `check_subnet` rejects the connection's subnet
configuration; otherwise it forwards `get_block_hash` for the requested
height over the pooled connection and returns that result, performing no
state mutation. -/
theorem c6_handle_spec (env : BlockHashEnv) (request : BlockHashParams) :
    (∀ e, env.parseSubnetId request.subnet_id = .error e →
      BlockHashHandler.handle env request = .error e) ∧
    (∀ subnet, env.parseSubnetId request.subnet_id = .ok subnet →
      env.poolGet subnet = none →
      BlockHashHandler.handle env request = .error "target parent subnet not found") ∧
    (∀ subnet conn e, env.parseSubnetId request.subnet_id = .ok subnet →
      env.poolGet subnet = some conn →
      env.checkSubnet (env.connSubnet conn) = .error e →
      BlockHashHandler.handle env request = .error e) ∧
    (∀ subnet conn, env.parseSubnetId request.subnet_id = .ok subnet →
      env.poolGet subnet = some conn →
      env.checkSubnet (env.connSubnet conn) = .ok () →
      BlockHashHandler.handle env request = env.getBlockHash conn request.height) := by
  refine ⟨?_, ?_, ?_, ?_⟩
  · intro e hp
    unfold BlockHashHandler.handle
    simp only [hp]
  · intro subnet hp hpool
    unfold BlockHashHandler.handle
    simp only [hp, hpool]
  · intro subnet conn e hp hpool hcheck
    unfold BlockHashHandler.handle
    simp only [hp, hpool, hcheck]
  · intro subnet conn hp hpool hcheck
    unfold BlockHashHandler.handle
    simp only [hp, hpool, hcheck]

/-- An environment in which every collaborator of the handler succeeds. -/
def envAllOk : BlockHashEnv :=
  { parseSubnetId := fun _ => .ok 0
  , poolGet := fun _ => some 3
  , connSubnet := fun _ => 0
  , checkSubnet := fun _ => .ok ()
  , getBlockHash := fun _ _ => .ok [9] }

/-- A request for `envAllOk`. -/
def reqAllOk : BlockHashParams := { subnet_id := "/r0", height := 5 }

/-- C6 witness: the amended specification instantiated on a concrete
environment in which all collaborators succeed. -/
theorem c6_handle_spec_witness :
    BlockHashHandler.handle envAllOk reqAllOk = envAllOk.getBlockHash 3 reqAllOk.height :=
  (c6_handle_spec envAllOk reqAllOk).2.2.2 0 3 rfl rfl rfl

/-! ## The `0x` marker claim -/

/-- C10: `parse_logs` is insensitive to a leading `0x` marker: for every
string of hex digit characters `h`, parsing the single-element list holding
`0x` followed by `h` yields the same result as parsing the list holding `h`
alone. -/
theorem c10_marker_insensitive (h : String)
    (hhex : ∀ c ∈ h.data, (hexDigitVal c).isSome = true) :
    parse_logs [ "0x" ++ h] = parse_logs [h] := by
  obtain ⟨d⟩ := h
  have hstr : ( "0x" ++ String.mk d) = String.mk ('0' :: 'x' :: d) := rfl
  have hnm : hasOxMarker (String.mk d) = false := by
    rcases d with _ | ⟨c1, _ | ⟨c2, t⟩⟩
    · rfl
    · rfl
    · show (c1 == '0' && c2 == 'x') = false
      by_contra hb
      rw [Bool.not_eq_false, Bool.and_eq_true] at hb
      have hc2 : c2 = 'x' := by
        have := hb.2
        simpa using this
      have hmem : c2 ∈ (String.mk (c1 :: c2 :: t)).data := by simp
      have := hhex c2 hmem
      rw [hc2] at this
      exact absurd this (by decide)
  have h1 : logHexBody (String.mk ('0' :: 'x' :: d)) = String.mk d := by
    unfold logHexBody
    rw [show hasOxMarker (String.mk ('0' :: 'x' :: d)) = true from rfl]
    simp
  have h2 : logHexBody (String.mk d) = String.mk d := by
    unfold logHexBody
    rw [hnm]
    simp
  rw [hstr]
  unfold parse_logs
  rw [h1, h2]

/-- C10 witness: the `0x` marker insensitivity on the hex string `00`. -/
theorem c10_marker_insensitive_witness :
    parse_logs [ "0x" ++ "00"] = parse_logs [ "00"] :=
  c10_marker_insensitive "00" (by decide)


/-! ## Claims about the compiled-in data -/

/-- C4: decoding the compiled-in configuration-change blobs and mapping
them to `StakingChangeRequest`s succeeds and yields a batch whose
configuration numbers are exactly 18, 19, ..., 66 in list order — a
sequence ordered strictly by ascending configuration number matching the
input blob order, as passed to the staking facet. -/
theorem c4_compiled_changes_ascending :
    parse_logs raw_configuration_changes = .ok compiledLogs ∧
    decode_logs compiledLogs = .ok compiledFilters ∧
    compiledChanges = compiledFilters.map toStakingChangeRequest ∧
    compiledChanges.map (fun r => r.configuration_number) = List.range' 18 49 ∧
    List.Chain' (fun a b => a < b)
      (compiledChanges.map (fun r => r.configuration_number)) := by
  refine ⟨parse_compiled_eq, decode_compiled_eq, rfl, ?_, ?_⟩
  · rfl
  · rw [show compiledChanges.map (fun r => r.configuration_number) = List.range' 18 49
        from rfl]
    exact (List.pairwise_lt_range' 18 49).chain'

/-- C9: all 49 compiled-in raw configuration-change blobs are well-formed
for the event schema — `parse_logs` and `decode_logs` succeed on all of
them, every decoded record carries operation code 3, and the configuration
numbers are 18 (0x12) through 66 (0x42), consecutive and strictly
ascending in list order. -/
theorem c9_compiled_blobs_wellformed :
    raw_configuration_changes.length = 49 ∧
    parse_logs raw_configuration_changes = .ok compiledLogs ∧
    decode_logs compiledLogs = .ok compiledFilters ∧
    compiledFilters.map (fun p => p.op) = List.replicate 49 3 ∧
    compiledFilters.map (fun p => p.configuration_number) = List.range' 18 49 := by
  refine ⟨rfl, parse_compiled_eq, decode_compiled_eq, ?_, ?_⟩
  · rfl
  · rfl

/-! ## Claims about the patch procedure -/

/-- On the compiled-in digest the patch reduces to its two facet calls:
the digest decodes, the round-trip comparison passes, the blobs decode,
and the procedure performs, in order, the digest verification, the blob
decoding, the mapping, the single staking-facet call with the full batch,
and the finality-facet commit, stopping after a failed call. -/
theorem patch_concrete (σ : Type) (env : FacetEnv σ) (st : σ) :
    patch σ env st =
      match env.storeValidatorChanges st compiledChanges with
      | .error c =>
        { steps := [.verifyDigest topdown_hash_hex, .decodeBlobs 49, .mapChanges,
                    .callStaking compiledChanges]
        , state := st, error := some (.facetErr c) }
      | .ok st1 =>
        match env.commitParentFinality st1
            { height := topdown_height, block_hash := topdown_hash } with
        | .error c =>
          { steps := [.verifyDigest topdown_hash_hex, .decodeBlobs 49, .mapChanges,
                      .callStaking compiledChanges,
                      .commitFinality { height := topdown_height, block_hash := topdown_hash }]
          , state := st1, error := some (.facetErr c) }
        | .ok st2 =>
          { steps := [.verifyDigest topdown_hash_hex, .decodeBlobs 49, .mapChanges,
                      .callStaking compiledChanges,
                      .commitFinality { height := topdown_height, block_hash := topdown_hash }]
          , state := st2, error := none } := by
  rfl


/-- The step order asserted by the specification for the patch procedure:
first decode the blobs, then map them, then the staking-facet call, then
the digest verification, and last the finality commit. -/
def specClaimedStepOrder (t : List PatchStep) : Prop :=
  ∃ n batch hashHex finality,
    t = [.decodeBlobs n, .mapChanges, .callStaking batch,
         .verifyDigest hashHex, .commitFinality finality]

/-- C1 counterexample: running the compiled patch against an environment
whose facet calls succeed, the performed steps are not in the order the
specification asserts — the digest verification comes first, before the
blob decoding and before the staking-facet call, not between the staking
call and the finality commit. -/
theorem c1_counterexample :
    (patch Unit pureEnv ()).steps =
      [.verifyDigest topdown_hash_hex, .decodeBlobs 49, .mapChanges,
       .callStaking compiledChanges,
       .commitFinality { height := topdown_height, block_hash := topdown_hash }] ∧
    specClaimedStepOrder (patch Unit pureEnv ()).steps = False := by
  have hsteps : (patch Unit pureEnv ()).steps =
      [.verifyDigest topdown_hash_hex, .decodeBlobs 49, .mapChanges,
       .callStaking compiledChanges,
       .commitFinality { height := topdown_height, block_hash := topdown_hash }] := rfl
  refine ⟨hsteps, eq_false ?_⟩
  rw [hsteps]
  rintro ⟨n, batch, hashHex, finality, heq⟩
  simp at heq

/-- C1 (amended): the patch procedure performs its steps in this order:
(1) decode the compiled-in digest and compare its re-encoding against the
compiled-in expected value, a mismatch failing with a verification error
before any decoding or facet mutation, (2) decode the compiled-in raw
event blobs with the configuration-change topic, (3) map each decoded
record to a `StakingChangeRequest` preserving source order, (4) call the
staking facet once with the full ordered batch, and (5) call the finality
facet to commit the checkpoint (height, digest). -/
theorem c1_patch_step_order (σ : Type) (env : FacetEnv σ) (st st1 st2 : σ)
    (hstore : env.storeValidatorChanges st compiledChanges = .ok st1)
    (hcommit : env.commitParentFinality st1
      { height := topdown_height, block_hash := topdown_hash } = .ok st2) :
    patch σ env st =
      { steps := [.verifyDigest topdown_hash_hex, .decodeBlobs 49, .mapChanges,
                  .callStaking compiledChanges,
                  .commitFinality { height := topdown_height, block_hash := topdown_hash }]
      , state := st2, error := none } := by
  rw [patch_concrete]
  simp only [hstore, hcommit]

/-- C1 witness: the amended step order instantiated on the trivial
always-succeeding facet environment. -/
theorem c1_patch_step_order_witness :
    patch Unit pureEnv () =
      { steps := [.verifyDigest topdown_hash_hex, .decodeBlobs 49, .mapChanges,
                  .callStaking compiledChanges,
                  .commitFinality { height := topdown_height, block_hash := topdown_hash }]
      , state := (), error := none } :=
  c1_patch_step_order Unit pureEnv () () () rfl rfl

/-- C2: whenever the checkpoint-digest check fails — the re-encoding of
the decoded digest differs from the digest hex string — the patch returns
the `hash not equal` verification error, the finality facet's commit call
is never issued (no staking call is issued either), and the facet state is
left identical to its pre-patch value. -/
theorem c2_digest_mismatch_aborts (σ : Type) (env : FacetEnv σ) (st : σ)
    (hashHex : String) (bytes : List Nat)
    (hdec : hexDecode hashHex = .ok bytes) (hlen : bytes.length = 32)
    (hne : hexEncode bytes ≠ hashHex) :
    patchWithHash σ hashHex env st =
      { steps := [.verifyDigest hashHex], state := st, error := some .hashNotEqual } ∧
    (∀ finality, PatchStep.commitFinality finality ∉ (patchWithHash σ hashHex env st).steps) ∧
    (patchWithHash σ hashHex env st).state = st := by
  have hmain : patchWithHash σ hashHex env st =
      { steps := [.verifyDigest hashHex], state := st, error := some .hashNotEqual } := by
    unfold patchWithHash
    rw [hdec]
    simp only [hlen, if_true, if_neg hne]
  refine ⟨hmain, ?_, ?_⟩
  · intro finality
    rw [hmain]
    simp
  · rw [hmain]

/-- A 64-character uppercase hex string: it decodes, but lowercase
re-encoding does not reproduce it, so the digest check fails on it. -/
def mismatchHex : String :=
  "AAAAAAAAAAAAAAAAAAAAAAAAAAAAAAAAAAAAAAAAAAAAAAAAAAAAAAAAAAAAAAAA"

/-- C2 witness: the digest-mismatch abort on a concrete digest string that
decodes to 32 bytes but is not its own lowercase re-encoding. -/
theorem c2_digest_mismatch_aborts_witness :
    patchWithHash Unit mismatchHex pureEnv () =
      { steps := [.verifyDigest mismatchHex], state := (), error := some .hashNotEqual } :=
  (c2_digest_mismatch_aborts Unit pureEnv () mismatchHex (List.replicate 32 170)
    (by rfl) (by rfl) (by decide)).1

/-- C8: the compiled-in digest is a 64-character hex string that is its
own lowercase re-encoding, so the round-trip comparison in the patch
always passes and the `hash not equal` branch is unreachable: no run of
the compiled patch, whatever the facet environment does, returns the
verification error. -/
theorem c8_digest_check_vacuous :
    topdown_hash_hex.length = 64 ∧
    hexDecode topdown_hash_hex = .ok topdown_hash ∧
    hexEncode topdown_hash = topdown_hash_hex ∧
    ∀ (σ : Type) (env : FacetEnv σ) (st : σ),
      (patch σ env st).error = none ∨
      ∃ c, (patch σ env st).error = some (PatchError.facetErr c) := by
  refine ⟨rfl, rfl, rfl, ?_⟩
  intro σ env st
  rw [patch_concrete]
  split
  · exact .inr ⟨_, rfl⟩
  · split
    · exact .inr ⟨_, rfl⟩
    · exact .inl rfl


end FluenceIpc
